import Mathlib

/-!
Verification of the Pareto dashboard client (admin dashboard, user CRM portal,
and the tenants-table migration script) against its natural-language
specification.  The JavaScript sources are shallowly embedded: each handler
becomes a pure Lean function from the relevant client state and the outcome of
its network call to the next client state.  The browser runtime is
single-threaded and every handler awaits its own fetch, so one handler
invocation is one function application.
-/

namespace Pareto

/-- Outcome of a fetch followed by response.json().  The constructor error
covers a rejected fetch (network failure) and a body that fails to parse;
ok carries response.ok (whether the status was 2xx) and the parsed body.
The dashboard handlers never read response.ok, which the theorems below make
visible. -/
inductive FetchOutcome (α : Type) where
  | error : FetchOutcome α
  | ok (httpOk : Bool) (body : α) : FetchOutcome α
deriving DecidableEq

/-! ## Migration script (src/migrate_db_direct.sh lines 9-22) -/

/-- A column of the tenants table, identified by name, carrying its SQL type
and default clause. -/
structure Column where
  name : String
  sqlType : String
deriving DecidableEq

/-- ALTER TABLE tenants ADD COLUMN IF NOT EXISTS c: the column is appended
only when no column of the same name is already present. -/
def addColumnIfNotExists (schema : List Column) (c : Column) : List Column :=
  if schema.any (fun d => d.name = c.name) then schema else schema ++ [c]

/-- First statement of the script: created_at TIMESTAMP DEFAULT CURRENT_TIMESTAMP. -/
def createdAtCol : Column := ⟨"created_at", "TIMESTAMP DEFAULT CURRENT_TIMESTAMP"⟩

/-- Second statement of the script: updated_at TIMESTAMP DEFAULT CURRENT_TIMESTAMP. -/
def updatedAtCol : Column := ⟨"updated_at", "TIMESTAMP DEFAULT CURRENT_TIMESTAMP"⟩

/-- One run of migrate_db_direct.sh: the two ALTER TABLE statements in order. -/
def migrateTenants (schema : List Column) : List Column :=
  addColumnIfNotExists (addColumnIfNotExists schema createdAtCol) updatedAtCol

lemma addColumnIfNotExists_of_any (schema : List Column) (c : Column)
    (h : schema.any (fun d => d.name = c.name) = true) :
    addColumnIfNotExists schema c = schema := by
  unfold addColumnIfNotExists
  rw [if_pos h]

lemma any_name_addColumnIfNotExists_self (schema : List Column) (c : Column) :
    (addColumnIfNotExists schema c).any (fun d => d.name = c.name) = true := by
  unfold addColumnIfNotExists
  split
  next h => exact h
  next h =>
    rw [List.any_append]
    simp

lemma any_addColumnIfNotExists_of_any (schema : List Column) (c : Column)
    (p : Column → Bool) (h : schema.any p = true) :
    (addColumnIfNotExists schema c).any p = true := by
  unfold addColumnIfNotExists
  split
  · exact h
  · rw [List.any_append, h, Bool.true_or]

/-- C8: running the migration script a second time is a no-op on the schema:
both statements are ADD COLUMN IF NOT EXISTS on the tenants table, so applying
the script twice yields the same schema as applying it once. -/
theorem migrateTenants_idempotent (schema : List Column) :
    migrateTenants (migrateTenants schema) = migrateTenants schema := by
  have h1 : (migrateTenants schema).any (fun d => d.name = createdAtCol.name) = true :=
    any_addColumnIfNotExists_of_any _ _ _
      (any_name_addColumnIfNotExists_self schema createdAtCol)
  have h2 : (migrateTenants schema).any (fun d => d.name = updatedAtCol.name) = true :=
    any_name_addColumnIfNotExists_self _ _
  show addColumnIfNotExists (addColumnIfNotExists (migrateTenants schema) createdAtCol)
      updatedAtCol = migrateTenants schema
  rw [addColumnIfNotExists_of_any _ _ h1, addColumnIfNotExists_of_any _ _ h2]

/-! ## Toast alerts (src/static/admin_dashboard.js lines 828-851 and the user
portal showAlert).  A toast is created, appended to the alert container, and
scheduled for removal after 5000 ms; its close button removes it at once.  The
timeout callback guards on alert.parentElement, so it does nothing when the
toast was dismissed earlier.  We track attachment and how many times the node
was removed. -/

/-- DOM book-keeping for one toast: whether it is still attached to the alert
container and how many times remove() has detached it. -/
structure AlertToast where
  attached : Bool
  removals : Nat
deriving DecidableEq

/-- container.appendChild(alert): a freshly created toast, attached, never
removed. -/
def appendAlert : AlertToast := ⟨true, 0⟩

/-- The close-button handler this.parentElement.remove().  The button is only
clickable while the toast is in the DOM, hence the guard. -/
def dismissAlert (a : AlertToast) : AlertToast :=
  if a.attached then ⟨false, a.removals + 1⟩ else a

/-- The setTimeout callback: if (alert.parentElement) alert.remove().  The
parentElement guard makes the delayed removal a no-op after early dismissal. -/
def alertTimeoutFire (a : AlertToast) : AlertToast :=
  if a.attached then ⟨false, a.removals + 1⟩ else a

/-- Delay passed to setTimeout when the toast is created. -/
def alertAutoRemoveDelayMs : Nat := 5000

/-- Life of one toast: created and appended; optionally dismissed by the user
before the timeout; then the scheduled callback fires. -/
def alertLifecycle (dismissedEarly : Bool) : AlertToast :=
  alertTimeoutFire (if dismissedEarly then dismissAlert appendAlert else appendAlert)

/-- C7: whether or not the user dismisses it first, a toast ends detached from
the DOM and is removed exactly once — the 5000 ms timeout removes it when it
was not dismissed, and after an early dismissal the guarded callback is a
no-op, so early dismissal never makes the delayed removal fail or fire twice. -/
theorem alert_lifecycle_removed_once :
    (∀ dismissedEarly,
        (alertLifecycle dismissedEarly).attached = false ∧
        (alertLifecycle dismissedEarly).removals = 1) ∧
    alertTimeoutFire (dismissAlert appendAlert) = dismissAlert appendAlert ∧
    alertAutoRemoveDelayMs = 5000 := by
  refine ⟨fun b => ?_, by decide, rfl⟩
  cases b <;> simp [alertLifecycle, alertTimeoutFire, dismissAlert, appendAlert]

/-! ## Admin dashboard client state

Module-level mutable state of src/static/admin_dashboard.js (and of the
variant captured in src/unnamed/part_001) together with the DOM facts the
claims speak about: the stored token in localStorage, visibility of the login
modal and of the main container, the login error box, the rendered table rows,
and the list of toast alerts raised (message, severity). -/

/-- Identity payload of the admin, as read from data.admin. -/
structure AdminInfo where
  username : String
  full_name : Option String
deriving DecidableEq

/-- Parsed body of GET /auth/validate. -/
structure ValidateBody where
  success : Bool
  admin : Option AdminInfo
deriving DecidableEq

/-- Parsed body of POST /auth/login. -/
structure LoginBody where
  success : Bool
  session_token : Option String
  admin : Option AdminInfo
  message : Option String
deriving DecidableEq

/-- Client state of the admin dashboard. -/
structure AdminState where
  /-- module variable sessionToken -/
  sessionToken : Option String
  /-- localStorage key sessionToken (durable) -/
  storedSessionToken : Option String
  /-- module variable currentAdminInfo -/
  currentAdminInfo : Option AdminInfo
  /-- loginModal has the class active -/
  loginModalActive : Bool
  /-- container-main has display flex rather than none -/
  mainVisible : Bool
  /-- loginError element is not hidden -/
  loginErrorVisible : Bool
  /-- text of loginErrorMsg -/
  loginErrorMsg : String
  /-- rows of usersTableBody -/
  displayedUserRows : List String
  /-- rows of crmLeadsTableBody -/
  displayedCrmRows : List String
  /-- texts of the four CRM stat widgets: total, open, in progress, high priority -/
  crmStatsShown : Nat × Nat × Nat × Nat
  /-- module variable currentDeleteTarget: (type, id) -/
  currentDeleteTarget : Option (String × Nat)
  /-- deleteConfirmModal has the class active -/
  deleteConfirmModalActive : Bool
  /-- crmLeadModal has the class active -/
  crmLeadModalActive : Bool
  /-- a fire-and-forget loadCrmLeads() call has been triggered -/
  pendingCrmReload : Bool
  /-- filenames handed to the browser for download -/
  downloads : List String
  /-- toast alerts raised so far: (message, severity) -/
  alerts : List (String × String)
deriving DecidableEq

/-- showLoginModal: activate the login modal and hide the main container. -/
def showLoginModal (s : AdminState) : AdminState :=
  { s with loginModalActive := true, mainVisible := false }

/-- hideLoginModal (inlined in the static file on the success paths):
deactivate the login modal and show the main container. -/
def hideLoginModal (s : AdminState) : AdminState :=
  { s with loginModalActive := false, mainVisible := true }

/-- showAlert(message, type): append a toast to the alert container. -/
def showAlert (s : AdminState) (msg ty : String) : AdminState :=
  { s with alerts := s.alerts ++ [(msg, ty)] }

/-- validateSession of src/static/admin_dashboard.js (lines 135-159): on a
body with success true the admin info is stored (data.admin, possibly absent)
and the main container shown; on success false or a thrown fetch/parse the
token is cleared from the module variable and localStorage and the login modal
shown.  response.ok is never consulted.  No alert is raised on any path. -/
def validateSession (s : AdminState) (r : FetchOutcome ValidateBody) : AdminState :=
  match r with
  | .ok _ body =>
    if body.success then
      { s with currentAdminInfo := body.admin, mainVisible := true }
    else
      showLoginModal { s with sessionToken := none, storedSessionToken := none }
  | .error =>
      showLoginModal { s with sessionToken := none, storedSessionToken := none }

/-- logout of src/static/admin_dashboard.js (lines 161-175): the POST
/auth/logout outcome net is swallowed by try/catch; afterwards the token and
admin info are cleared unconditionally and the login modal shown. -/
def logout (s : AdminState) (_net : FetchOutcome Unit) : AdminState :=
  showLoginModal
    { s with sessionToken := none, storedSessionToken := none, currentAdminInfo := none }

/-- logout of src/unnamed/part_001 (lines 141-163): the POST /auth/logout — made
only when a token is present — has its outcome swallowed; the local state is
cleared unconditionally; with soft true no alert is raised. -/
def logoutV2 (s : AdminState) (soft : Bool) (_net : FetchOutcome Unit) : AdminState :=
  let s1 := showLoginModal
    { s with sessionToken := none, storedSessionToken := none, currentAdminInfo := none }
  if soft then s1 else showAlert s1 "You have been logged out." "info"

/-- validateSession of src/unnamed/part_001 (lines 115-139): the body is
accepted only when success is true and admin is present; every other outcome
calls logout(true). -/
def validateSessionV2 (s : AdminState) (r : FetchOutcome ValidateBody)
    (net : FetchOutcome Unit) : AdminState :=
  match r with
  | .ok _ body =>
    if body.success && body.admin.isSome then
      hideLoginModal { s with currentAdminInfo := body.admin }
    else
      logoutV2 s true net
  | .error => logoutV2 s true net

/-- handleLogin of src/static/admin_dashboard.js (lines 96-133): on success
true the token is written to the module variable and localStorage, admin info
stored, login modal hidden, main container shown, and a success toast raised;
on success false the login error box shows data.message (default Login
failed); on a thrown fetch/parse it shows a generic message.  The failure
paths touch neither token. -/
def handleLogin (s : AdminState) (r : FetchOutcome LoginBody) : AdminState :=
  match r with
  | .ok _ body =>
    if body.success then
      showAlert
        (hideLoginModal
          { s with sessionToken := body.session_token,
                   storedSessionToken := body.session_token,
                   currentAdminInfo := body.admin })
        "Login successful!" "success"
    else
      { s with loginErrorVisible := true,
               loginErrorMsg := body.message.getD "Login failed" }
  | .error =>
      { s with loginErrorVisible := true,
               loginErrorMsg := "An error occurred during login" }

/-- handleLogin of src/unnamed/part_001 (lines 70-113): identical except the
success branch additionally requires a session_token in the body. -/
def handleLoginV2 (s : AdminState) (r : FetchOutcome LoginBody) : AdminState :=
  match r with
  | .ok _ body =>
    if body.success && body.session_token.isSome then
      showAlert
        (hideLoginModal
          { s with sessionToken := body.session_token,
                   storedSessionToken := body.session_token,
                   currentAdminInfo := body.admin })
        "Login successful!" "success"
    else
      { s with loginErrorVisible := true,
               loginErrorMsg := body.message.getD "Login failed" }
  | .error =>
      { s with loginErrorVisible := true,
               loginErrorMsg := "An error occurred during login" }

/-! ## User CRM portal (the script concatenated after the migration script in
src/migrate_db_direct.sh).  Same shape: module variables userToken,
currentUser, currentLeadId, the login and password-setup modals, and the lead
cards container. -/

/-- Identity payload of a portal user, as read from data.user. -/
structure UserInfo where
  full_name : Option String
  email : String
  tenant_name : Option String
deriving DecidableEq

/-- Parsed body of POST /user/login. -/
structure UserLoginBody where
  success : Bool
  session_token : Option String
  user : Option UserInfo
  message : Option String
deriving DecidableEq

/-- Parsed body of GET /user/validate. -/
structure UserValidateBody where
  success : Bool
  user : Option UserInfo
deriving DecidableEq

/-- Generic parsed body carrying only success and an optional message
(POST /user/setup-password, PUT /crm/leads/:id, DELETE responses). -/
structure ApiBody where
  success : Bool
  message : Option String
deriving DecidableEq

/-- CRM lead as rendered by the user portal (fields the code reads). -/
structure LeadRec where
  id : Nat
  lead_subject : Option String
  owner : Option String
  priority : Option String
  status : Option String
  created_at : Option String
deriving DecidableEq

/-- Stats object of GET /crm/leads (user portal). -/
structure UserStats where
  total : Option Nat
  «open» : Option Nat
  in_progress : Option Nat
  my_leads : Option Nat
deriving DecidableEq

/-- Parsed body of GET /crm/leads.  The code reads data.leads || [] and
data.stats || {}. -/
structure UserLeadsBody where
  success : Bool
  leads : Option (List LeadRec)
  stats : Option UserStats
  message : Option String
deriving DecidableEq

/-- Client state of the user CRM portal. -/
structure UserState where
  /-- module variable userToken -/
  userToken : Option String
  /-- localStorage key userCrmToken (durable) -/
  storedUserToken : Option String
  /-- module variable currentUser -/
  currentUser : Option UserInfo
  /-- loginModal has the class active -/
  loginModalActive : Bool
  /-- passwordSetupModal has the class active -/
  passwordSetupModalActive : Bool
  /-- mainContainer has display block -/
  mainVisible : Bool
  /-- userNavRight has display flex -/
  navVisible : Bool
  /-- loginError element is not hidden -/
  loginErrorVisible : Bool
  /-- text inside loginError -/
  loginErrorMsg : String
  /-- setupError element is not hidden -/
  setupErrorVisible : Bool
  /-- text inside setupError -/
  setupErrorMsg : String
  /-- value of the loginEmail input -/
  loginEmailValue : String
  /-- leadDetailModal has the class active -/
  leadDetailModalActive : Bool
  /-- cards of leadsContainer -/
  displayedLeadCards : List String
  /-- texts of the four user stat widgets: total, open, in progress, mine -/
  userStatsShown : Nat × Nat × Nat × Nat
  /-- a fire-and-forget loadUserLeads() call has been triggered -/
  pendingLeadsReload : Bool
  /-- toast alerts raised so far: (message, severity) -/
  alerts : List (String × String)
deriving DecidableEq

/-- showAlert of the user portal. -/
def showUserAlert (s : UserState) (msg ty : String) : UserState :=
  { s with alerts := s.alerts ++ [(msg, ty)] }

/-- showMainContent: close both auth modals, show the main container and nav,
update the user labels, and trigger loadUserLeads(). -/
def showMainContent (s : UserState) : UserState :=
  { s with loginModalActive := false, passwordSetupModalActive := false,
           mainVisible := true, navVisible := true, pendingLeadsReload := true }

/-- handleUserLogin (src/migrate_db_direct.sh lines 74-103): hideError first;
on success true store the token in the module variable and localStorage and
show the main content; otherwise show the error text and leave both tokens
untouched. -/
def handleUserLogin (s : UserState) (r : FetchOutcome UserLoginBody) : UserState :=
  let s0 := { s with loginErrorVisible := false }
  match r with
  | .ok _ body =>
    if body.success then
      showMainContent
        { s0 with userToken := body.session_token,
                  storedUserToken := body.session_token,
                  currentUser := body.user }
    else
      { s0 with loginErrorVisible := true,
                loginErrorMsg := body.message.getD "Login failed" }
  | .error =>
      { s0 with loginErrorVisible := true,
                loginErrorMsg := "Login failed. Please try again." }

/-- handleUserLogout (src/migrate_db_direct.sh lines 167-175): purely local —
no network call at all; clears both tokens and the user, hides the main
content and nav, opens the login modal. -/
def handleUserLogout (s : UserState) : UserState :=
  { s with userToken := none, currentUser := none, storedUserToken := none,
           mainVisible := false, navVisible := false, loginModalActive := true }

/-- validateUserSession (src/migrate_db_direct.sh lines 147-165): a body with
success true stores the user and shows the main content; anything else calls
handleUserLogout. -/
def validateUserSession (s : UserState) (r : FetchOutcome UserValidateBody) : UserState :=
  match r with
  | .ok _ body =>
    if body.success then
      showMainContent { s with currentUser := body.user }
    else handleUserLogout s
  | .error => handleUserLogout s

/-- handlePasswordSetup (src/migrate_db_direct.sh lines 105-145): hideError;
if the two passwords differ, show Passwords do not match and return; if the
password is shorter than 8, show the length error and return; only then POST
/user/setup-password with (email, password).  Returns the new state and the
request body sent, if any; r is the outcome of that request when it is sent.
String.length counts code points where the JS .length counts UTF-16 units;
the two agree on the inputs considered here. -/
def handlePasswordSetup (s : UserState) (email password confirmPassword : String)
    (r : FetchOutcome ApiBody) : UserState × Option (String × String) :=
  let s0 := { s with setupErrorVisible := false }
  if password ≠ confirmPassword then
    ({ s0 with setupErrorVisible := true,
               setupErrorMsg := "Passwords do not match" }, none)
  else if password.length < 8 then
    ({ s0 with setupErrorVisible := true,
               setupErrorMsg := "Password must be at least 8 characters" }, none)
  else
    match r with
    | .ok _ body =>
      if body.success then
        ({ showUserAlert s0 "Password set successfully! You can now login." "success" with
             passwordSetupModalActive := false, loginModalActive := true,
             loginEmailValue := email }, some (email, password))
      else
        ({ s0 with setupErrorVisible := true,
                   setupErrorMsg := body.message.getD "Failed to set password" },
         some (email, password))
    | .error =>
        ({ s0 with setupErrorVisible := true,
                   setupErrorMsg := "Failed to set password. Please try again." },
         some (email, password))

/-! ## Rendering.  The HTML row and card templates are embedded as strings
that keep every datum and conditional of the source template in source order;
static markup is abbreviated.  What matters for the claims is which records
are rendered, with which computed badge classes, and in which order. -/

/-- Ternary chain for the priority badge class: High, Mid, otherwise info. -/
def badgePriorityClass (p : Option String) : String :=
  if p = some "High" then "badge-danger"
  else if p = some "Mid" then "badge-warning"
  else "badge-info"

/-- Ternary chain for the status badge class: Open, In Progress, Closed,
otherwise secondary. -/
def badgeStatusClass (st : Option String) : String :=
  if st = some "Open" then "badge-primary"
  else if st = some "In Progress" then "badge-warning"
  else if st = some "Closed" then "badge-success"
  else "badge-secondary"

/-- One lead card of displayUserLeads. -/
def renderUserLeadCard (l : LeadRec) : String :=
  "<div class=lead-card id=" ++ toString l.id ++ ">"
    ++ l.lead_subject.getD "No Subject" ++ "|"
    ++ l.owner.getD "-" ++ "|"
    ++ badgePriorityClass l.priority ++ ":" ++ l.priority.getD "-" ++ "|"
    ++ badgeStatusClass l.status ++ ":" ++ l.status.getD "-" ++ "|"
    ++ l.created_at.getD "-" ++ "</div>"

/-- displayUserLeads: map the server list into cards in order; an empty list
renders the placeholder text instead. -/
def displayUserLeads (leads : List LeadRec) : List String :=
  if leads.length > 0 then leads.map renderUserLeadCard else ["No leads found"]

/-- updateUserStats: the four widgets receive stats.total || 0, stats.open || 0,
stats.in_progress || 0, stats.my_leads || 0 — verbatim server values with a
0 default. -/
def updateUserStats (st : UserStats) : Nat × Nat × Nat × Nat :=
  (st.total.getD 0, st.«open».getD 0, st.in_progress.getD 0, st.my_leads.getD 0)

/-- Values of the three filter controls of the user portal. -/
structure LeadsQuery where
  status : String
  priority : String
  myLeadsOnly : Bool
deriving DecidableEq

/-- URL built by loadUserLeads: each nonempty filter becomes a server-side
query parameter; the my-leads toggle becomes my_leads=true. -/
def loadUserLeadsUrl (q : LeadsQuery) : String :=
  let u := "/api/crm/leads?"
  let u := if q.status ≠ "" then u ++ "status=" ++ q.status ++ "&" else u
  let u := if q.priority ≠ "" then u ++ "priority=" ++ q.priority ++ "&" else u
  if q.myLeadsOnly then u ++ "my_leads=true&" else u

/-- loadUserLeads (src/migrate_db_direct.sh lines 199-226): fetch the built
URL; on success render data.leads || [] as returned — every element, in server
order, no client-side sorting or filtering — and show data.stats || {};
otherwise raise an error toast and leave the container as it was.  Returns the
new state and the URL requested. -/
def loadUserLeads (s : UserState) (q : LeadsQuery) (r : FetchOutcome UserLeadsBody) :
    UserState × String :=
  let url := loadUserLeadsUrl q
  match r with
  | .ok _ body =>
    if body.success then
      ({ s with displayedLeadCards := displayUserLeads (body.leads.getD []),
                userStatsShown := updateUserStats (body.stats.getD ⟨none, none, none, none⟩) },
       url)
    else (showUserAlert s (body.message.getD "Failed to load leads") "error", url)
  | .error => (showUserAlert s "Failed to load leads" "error", url)

/-- Admin user record as rendered by displayUsers (fields the template reads). -/
structure UserRow where
  id : Nat
  first_name : String
  last_name : String
  phone_number : String
  email : Option String
  google_calendar_id : Option String
  is_enabled : Bool
  has_token : Bool
deriving DecidableEq

/-- One row of displayUsers. -/
def renderUserRow (u : UserRow) : String :=
  "<tr id=" ++ toString u.id ++ ">"
    ++ u.first_name ++ " " ++ u.last_name ++ "|"
    ++ u.phone_number ++ "|"
    ++ u.email.getD "-" ++ "|"
    ++ (match u.google_calendar_id with
        | some cid => "badge-info:" ++ cid
        | none => "badge-secondary:Not Set") ++ "|"
    ++ (if u.is_enabled then "badge-success:Enabled" else "badge-danger:Disabled") ++ "|"
    ++ (if u.has_token then "Manage" else "Upload") ++ "</tr>"

/-- displayUsers (src/static/admin_dashboard.js lines 295-326):
tableBody.innerHTML = users.map(...).join('') — the rows are exactly the
server list in server order. -/
def displayUsers (users : List UserRow) : List String :=
  users.map renderUserRow

/-- filterUsers (src/static/admin_dashboard.js lines 328-330): the handler
registered for the user search input and the enabled filter has an empty body
— a placeholder comment only — so it changes nothing whatever the controls
hold. -/
def filterUsers (s : AdminState) (_searchText _enabledFilter : String) : AdminState :=
  s

/-- Tenant record as rendered by displayTenants. -/
structure TenantRow where
  id : Nat
  company_name : String
  email : Option String
  phone : Option String
  user_count : Option Nat
  active : Bool
deriving DecidableEq

/-- One row of displayTenants; the user count column shows the server-provided
tenant.user_count, or N/A when the field is absent. -/
def renderTenantRow (t : TenantRow) : String :=
  "<tr>" ++ t.company_name ++ "|"
    ++ t.email.getD "-" ++ "|"
    ++ t.phone.getD "-" ++ "|"
    ++ (match t.user_count with | some n => toString n | none => "N/A") ++ "|"
    ++ (if t.active then "badge-success:Active" else "badge-danger:Inactive") ++ "</tr>"

/-- displayTenants (src/static/admin_dashboard.js lines 441-458): rows are the
server list in server order. -/
def displayTenants (ts : List TenantRow) : List String :=
  ts.map renderTenantRow

/-- Admin CRM lead as rendered by displayCrmLeads. -/
structure CrmLeadRec where
  id : Nat
  lead_subject : Option String
  tenant_name : Option String
  user_name : Option String
  owner : Option String
  priority : Option String
  status : Option String
  created_at : Option String
deriving DecidableEq

/-- One row of displayCrmLeads. -/
def renderCrmLeadRow (l : CrmLeadRec) : String :=
  "<tr id=" ++ toString l.id ++ ">"
    ++ l.lead_subject.getD "No Subject" ++ "|"
    ++ l.tenant_name.getD "-" ++ "|"
    ++ l.user_name.getD "-" ++ "|"
    ++ l.owner.getD "-" ++ "|"
    ++ badgePriorityClass l.priority ++ ":" ++ l.priority.getD "-" ++ "|"
    ++ badgeStatusClass l.status ++ ":" ++ l.status.getD "-" ++ "|"
    ++ l.created_at.getD "-" ++ "</tr>"

/-- displayCrmLeads (src/static/admin_dashboard.js lines 890-923): map the
server list in order; an empty list renders the placeholder row. -/
def displayCrmLeads (leads : List CrmLeadRec) : List String :=
  if leads.length > 0 then leads.map renderCrmLeadRow else ["No leads found"]

/-- Stats object of GET /admin/crm/leads. -/
structure CrmStats where
  total : Option Nat
  «open» : Option Nat
  in_progress : Option Nat
  high_priority : Option Nat
deriving DecidableEq

/-- updateCrmStats (src/static/admin_dashboard.js lines 925-930): the four
widgets receive stats.total || 0, stats.open || 0, stats.in_progress || 0,
stats.high_priority || 0 — verbatim server values with a 0 default. -/
def updateCrmStats (st : CrmStats) : Nat × Nat × Nat × Nat :=
  (st.total.getD 0, st.«open».getD 0, st.in_progress.getD 0, st.high_priority.getD 0)

/-- Values of the three admin CRM filter controls. -/
structure CrmQuery where
  tenantId : String
  status : String
  priority : String
deriving DecidableEq

/-- Parsed body of GET /admin/crm/leads. -/
structure CrmLeadsBody where
  success : Bool
  leads : Option (List CrmLeadRec)
  stats : Option CrmStats
  message : Option String
deriving DecidableEq

/-- URL built by loadCrmLeads: every filter is a server-side query parameter. -/
def loadCrmLeadsUrl (q : CrmQuery) : String :=
  let u := "/api/admin/crm/leads?"
  let u := if q.tenantId ≠ "" then u ++ "tenant_id=" ++ q.tenantId ++ "&" else u
  let u := if q.status ≠ "" then u ++ "status=" ++ q.status ++ "&" else u
  if q.priority ≠ "" then u ++ "priority=" ++ q.priority ++ "&" else u

/-- loadCrmLeads (src/static/admin_dashboard.js lines 861-888): on success
render data.leads || [] in server order and pass data.stats || {} to
updateCrmStats; on failure raise an error toast and leave the table as it
was.  Returns the new state and the URL requested. -/
def loadCrmLeads (s : AdminState) (q : CrmQuery) (r : FetchOutcome CrmLeadsBody) :
    AdminState × String :=
  let url := loadCrmLeadsUrl q
  match r with
  | .ok _ body =>
    if body.success then
      ({ s with displayedCrmRows := displayCrmLeads (body.leads.getD []),
                crmStatsShown := updateCrmStats (body.stats.getD ⟨none, none, none, none⟩) },
       url)
    else (showAlert s (body.message.getD "Failed to load CRM leads") "error", url)
  | .error => (showAlert s "Failed to load CRM leads" "error", url)

/-- User record inside the GET /admin/tenants/:id detail payload. -/
structure TenantUserRec where
  first_name : String
  last_name : String
  phone_number : String
deriving DecidableEq

/-- data.tenant of GET /admin/tenants/:id, with exactly the fields
viewTenantUsers reads: company_name and users.  The payload carries no
aggregate count field. -/
structure TenantDetail where
  company_name : String
  users : List TenantUserRec
deriving DecidableEq

/-- The numeric aggregate fields of the tenant-detail payload as consumed by
viewTenantUsers — the code reads only company_name and users, so there are
none. -/
def tenantDetailServerAggregates (_t : TenantDetail) : List Nat :=
  []

/-- Alert message built by viewTenantUsers (src/static/admin_dashboard.js
lines 460-486): for a nonempty users array it interpolates the client-computed
count users.length into the heading. -/
def viewTenantUsersMessage (t : TenantDetail) : String :=
  let base := "<strong>" ++ t.company_name ++ "</strong><br><br>"
  if t.users.length > 0 then
    base ++ "<strong>Users (" ++ toString t.users.length ++ "):</strong><br>"
      ++ String.intercalate "<br>"
          (t.users.map (fun u => u.first_name ++ " " ++ u.last_name
            ++ " (" ++ u.phone_number ++ ")"))
  else
    base ++ "No users found for this tenant."

/-- The count displayed inside the viewTenantUsers heading, when one is shown. -/
def viewTenantUsersDisplayedCount (t : TenantDetail) : Option Nat :=
  if t.users.length > 0 then some t.users.length else none

/-! ## Generic deletion (src/static/admin_dashboard.js lines 785-814).  The
REST server itself is outside src/, so its DELETE semantics is taken from the
specification. -/

/-- Modelled from the spec: the REST API server is an external collaborator
(spec section 1); section 4.2 gives delete(id) -> void and section 8 states
that a deleted entity is absent from the next load() result.  A 2xx
success:true response to DELETE /admin/users/:id therefore means the record
with that id is gone from the server. -/
def serverDeleteUser (users : List UserRow) (id : Nat) : List UserRow :=
  users.filter (fun u => u.id ≠ id)

/-- Combined world for the delete flow: the server-held user list plus the
client state. -/
structure CrudWorld where
  serverUsers : List UserRow
  client : AdminState
deriving DecidableEq

/-- Modelled from the spec: load(filters) -> List of entities (spec section
4.2); GET /admin/users returns the current server-held list. -/
def serverLoadUsers (w : CrudWorld) : List UserRow :=
  w.serverUsers

/-- type.charAt(0).toUpperCase() + type.slice(1). -/
def capitalizeFirst (t : String) : String :=
  match t.data with
  | [] => ""
  | c :: cs => String.mk (c.toUpper :: cs)

/-- confirmDelete (src/static/admin_dashboard.js lines 785-814): absent a
target it returns at once.  Otherwise DELETE /admin/TYPEs/ID; on success a
success toast is raised and, for type user, loadUsers() re-renders the table
from the now-updated server list; on success:false the toast shows
data.message and on a thrown fetch/parse a generic one — in both failure cases
neither the server list nor the rendered rows change.  Either way the confirm
modal closes and the target clears. -/
def confirmDelete (w : CrudWorld) (r : FetchOutcome ApiBody) : CrudWorld :=
  match w.client.currentDeleteTarget with
  | none => w
  | some (ty, id) =>
    let w1 : CrudWorld :=
      match r with
      | .ok _ body =>
        if body.success then
          let server := serverDeleteUser w.serverUsers id
          let c := showAlert w.client (capitalizeFirst ty ++ " deleted successfully!") "success"
          let c := if ty = "user" then { c with displayedUserRows := displayUsers server } else c
          { serverUsers := server, client := c }
        else
          { w with client := showAlert w.client (body.message.getD "") "error" }
      | .error =>
          { w with client := showAlert w.client ("Failed to delete " ++ ty) "error" }
    { w1 with client := { w1.client with deleteConfirmModalActive := false,
                                         currentDeleteTarget := none } }

/-! ## Guarded handlers (updateLead, updateCrmLeadStatus, downloadCurrentToken).
Each begins with if (!currentId) return; — with no selected target nothing at
all happens.  Each returns the new state together with whether the request was
issued. -/

/-- JavaScript falsiness of a nullable numeric id: null and 0 are falsy. -/
def jsFalsyId (o : Option Nat) : Bool :=
  match o with
  | none => true
  | some n => n == 0

/-- updateLead of the user portal (src/migrate_db_direct.sh lines 319-353):
if (!currentLeadId) return; otherwise PUT /crm/leads/:id with status, owner
and priority; on success a success toast, the detail modal closes and
loadUserLeads() is triggered; on failure an error toast only. -/
def updateLead (s : UserState) (currentLeadId : Option Nat)
    (_newStatus _newOwner _newPriority : String) (r : FetchOutcome ApiBody) :
    UserState × Bool :=
  if jsFalsyId currentLeadId then (s, false)
  else
    match r with
    | .ok _ body =>
      if body.success then
        ({ showUserAlert s "Lead updated successfully!" "success" with
             leadDetailModalActive := false, pendingLeadsReload := true }, true)
      else (showUserAlert s (body.message.getD "Failed to update lead") "error", true)
    | .error => (showUserAlert s "Failed to update lead" "error", true)

/-- updateCrmLeadStatus (src/static/admin_dashboard.js lines 1008-1036):
if (!currentCrmLeadId) return; otherwise PUT /admin/crm/leads/:id with the
status; on success a success toast, the lead modal closes and loadCrmLeads()
is triggered; on failure an error toast only. -/
def updateCrmLeadStatus (s : AdminState) (currentCrmLeadId : Option Nat)
    (_newStatus : String) (r : FetchOutcome ApiBody) : AdminState × Bool :=
  if jsFalsyId currentCrmLeadId then (s, false)
  else
    match r with
    | .ok _ body =>
      if body.success then
        ({ showAlert s "Lead status updated successfully!" "success" with
             crmLeadModalActive := false, pendingCrmReload := true }, true)
      else (showAlert s (body.message.getD "Failed to update lead status") "error", true)
    | .error => (showAlert s "Failed to update lead status" "error", true)

/-- Parsed body of GET /admin/users/:id/token. -/
structure TokenBody where
  success : Bool
  token_data : Option String
  message : Option String
deriving DecidableEq

/-- downloadCurrentToken (src/static/admin_dashboard.js lines 601-630):
if (!currentTokenUserId) return; otherwise GET the token; when success and
token_data are both present a blob named google_token_user_ID.json is handed
to the browser and a success toast raised; otherwise an error toast. -/
def downloadCurrentToken (s : AdminState) (currentTokenUserId : Option Nat)
    (r : FetchOutcome TokenBody) : AdminState × Bool :=
  match currentTokenUserId with
  | none => (s, false)
  | some uid =>
    if uid == 0 then (s, false)
    else
      match r with
      | .ok _ body =>
        if body.success && body.token_data.isSome then
          ({ showAlert s "Token downloaded successfully!" "success" with
               downloads := s.downloads
                 ++ ["google_token_user_" ++ toString uid ++ ".json"] }, true)
        else (showAlert s (body.message.getD "Failed to download token") "error", true)
      | .error => (showAlert s "Failed to download token" "error", true)

/-! ## Concrete states used to evaluate the definitions on explicit inputs. -/

/-- A logged-in admin dashboard state with token tok. -/
def adminState0 : AdminState where
  sessionToken := some "tok"
  storedSessionToken := some "tok"
  currentAdminInfo := some ⟨"root", some "Root Admin"⟩
  loginModalActive := false
  mainVisible := true
  loginErrorVisible := false
  loginErrorMsg := ""
  displayedUserRows := []
  displayedCrmRows := []
  crmStatsShown := (0, 0, 0, 0)
  currentDeleteTarget := none
  deleteConfirmModalActive := false
  crmLeadModalActive := false
  pendingCrmReload := false
  downloads := []
  alerts := []

/-- A logged-in user portal state for the user displayed as Alice. -/
def userState0 : UserState where
  userToken := some "utok"
  storedUserToken := some "utok"
  currentUser := some ⟨some "Alice", "alice@example.com", some "Acme"⟩
  loginModalActive := false
  passwordSetupModalActive := false
  mainVisible := true
  navVisible := true
  loginErrorVisible := false
  loginErrorMsg := ""
  setupErrorVisible := false
  setupErrorMsg := ""
  loginEmailValue := ""
  leadDetailModalActive := false
  displayedLeadCards := []
  userStatsShown := (0, 0, 0, 0)
  pendingLeadsReload := false
  alerts := []

/-! ## C1: session-validation failure logs out -/

/-- Failure of a session-validation call exactly as the claim enumerates it:
network error, non-2xx response, success:false, or missing admin in the body. -/
def claimValidationFailure (r : FetchOutcome ValidateBody) : Bool :=
  match r with
  | .error => true
  | .ok httpOk body => !httpOk || !body.success || body.admin.isNone

/-- C1 counterexample: a 2xx response whose body is success:true with no admin
field is a failed validation in the sense of the claim, yet the static
dashboard validateSession keeps the session: the token stays in the module
variable and in localStorage and the login view is not shown. -/
theorem validateSession_claim_counterexample :
    claimValidationFailure (.ok true ⟨true, none⟩) = true
  ∧ (validateSession adminState0 (.ok true ⟨true, none⟩)).sessionToken = some "tok"
  ∧ (validateSession adminState0 (.ok true ⟨true, none⟩)).storedSessionToken = some "tok"
  ∧ (validateSession adminState0 (.ok true ⟨true, none⟩)).loginModalActive = false
  ∧ (validateSession adminState0 (.ok true ⟨true, none⟩)).mainVisible = true :=
  ⟨rfl, rfl, rfl, rfl, rfl⟩

/-- C1 (amended): when a single session-validation call fails in the sense the
code tests — the fetch rejects or the body fails to parse, or the parsed body
is rejected (success not true for the static dashboard; success not true or
admin missing for the part_001 variant) — the client logs out at once with no
retry: the token is cleared from the module variable and from durable local
storage, the login view is shown, and no alert is raised.  The HTTP status is
never consulted, and a success:true body is accepted even when non-2xx — in
the static dashboard even with admin missing. -/
theorem validateSession_failure_logs_out (s : AdminState) (a : Option AdminInfo)
    (hok : Bool) (net : FetchOutcome Unit) :
    (validateSession s .error).sessionToken = none
  ∧ (validateSession s .error).storedSessionToken = none
  ∧ (validateSession s .error).loginModalActive = true
  ∧ (validateSession s .error).mainVisible = false
  ∧ (validateSession s .error).alerts = s.alerts
  ∧ (validateSession s (.ok hok ⟨false, a⟩)).sessionToken = none
  ∧ (validateSession s (.ok hok ⟨false, a⟩)).storedSessionToken = none
  ∧ (validateSession s (.ok hok ⟨false, a⟩)).loginModalActive = true
  ∧ (validateSession s (.ok hok ⟨false, a⟩)).mainVisible = false
  ∧ (validateSession s (.ok hok ⟨false, a⟩)).alerts = s.alerts
  ∧ (validateSessionV2 s .error net).sessionToken = none
  ∧ (validateSessionV2 s .error net).storedSessionToken = none
  ∧ (validateSessionV2 s .error net).loginModalActive = true
  ∧ (validateSessionV2 s .error net).mainVisible = false
  ∧ (validateSessionV2 s .error net).alerts = s.alerts
  ∧ (validateSessionV2 s (.ok hok ⟨false, a⟩) net).sessionToken = none
  ∧ (validateSessionV2 s (.ok hok ⟨false, a⟩) net).storedSessionToken = none
  ∧ (validateSessionV2 s (.ok hok ⟨false, a⟩) net).loginModalActive = true
  ∧ (validateSessionV2 s (.ok hok ⟨false, a⟩) net).mainVisible = false
  ∧ (validateSessionV2 s (.ok hok ⟨false, a⟩) net).alerts = s.alerts
  ∧ (validateSessionV2 s (.ok hok ⟨true, none⟩) net).sessionToken = none
  ∧ (validateSessionV2 s (.ok hok ⟨true, none⟩) net).storedSessionToken = none
  ∧ (validateSessionV2 s (.ok hok ⟨true, none⟩) net).loginModalActive = true
  ∧ (validateSessionV2 s (.ok hok ⟨true, none⟩) net).mainVisible = false
  ∧ (validateSessionV2 s (.ok hok ⟨true, none⟩) net).alerts = s.alerts :=
  ⟨rfl, rfl, rfl, rfl, rfl, rfl, rfl, rfl, rfl, rfl, rfl, rfl, rfl, rfl, rfl,
   rfl, rfl, rfl, rfl, rfl, rfl, rfl, rfl, rfl, rfl⟩

/-! ## C2: login success stores the token, failure shows an error -/

/-- C2: across all three login handlers, a response with success true carrying
a session token writes that token to durable local storage (and the module
variable) and reveals the main view; with success false or a thrown
fetch/parse, neither token is touched and the login error message is shown. -/
theorem login_token_and_error_handling (s : AdminState) (sU : UserState)
    (t : String) (a : Option AdminInfo) (u : Option UserInfo)
    (st : Option String) (m : Option String) (hok : Bool) :
    (handleLogin s (.ok hok ⟨true, some t, a, m⟩)).storedSessionToken = some t
  ∧ (handleLogin s (.ok hok ⟨true, some t, a, m⟩)).sessionToken = some t
  ∧ (handleLogin s (.ok hok ⟨true, some t, a, m⟩)).mainVisible = true
  ∧ (handleLogin s (.ok hok ⟨true, some t, a, m⟩)).loginModalActive = false
  ∧ (handleLogin s (.ok hok ⟨false, st, a, m⟩)).sessionToken = s.sessionToken
  ∧ (handleLogin s (.ok hok ⟨false, st, a, m⟩)).storedSessionToken = s.storedSessionToken
  ∧ (handleLogin s (.ok hok ⟨false, st, a, m⟩)).loginErrorVisible = true
  ∧ (handleLogin s (.ok hok ⟨false, st, a, m⟩)).loginErrorMsg = m.getD "Login failed"
  ∧ (handleLogin s .error).sessionToken = s.sessionToken
  ∧ (handleLogin s .error).storedSessionToken = s.storedSessionToken
  ∧ (handleLogin s .error).loginErrorVisible = true
  ∧ (handleLogin s .error).loginErrorMsg = "An error occurred during login"
  ∧ (handleLoginV2 s (.ok hok ⟨true, some t, a, m⟩)).storedSessionToken = some t
  ∧ (handleLoginV2 s (.ok hok ⟨true, some t, a, m⟩)).sessionToken = some t
  ∧ (handleLoginV2 s (.ok hok ⟨true, some t, a, m⟩)).mainVisible = true
  ∧ (handleLoginV2 s (.ok hok ⟨true, some t, a, m⟩)).loginModalActive = false
  ∧ (handleLoginV2 s (.ok hok ⟨false, st, a, m⟩)).sessionToken = s.sessionToken
  ∧ (handleLoginV2 s (.ok hok ⟨false, st, a, m⟩)).storedSessionToken = s.storedSessionToken
  ∧ (handleLoginV2 s (.ok hok ⟨false, st, a, m⟩)).loginErrorVisible = true
  ∧ (handleLoginV2 s .error).sessionToken = s.sessionToken
  ∧ (handleLoginV2 s .error).storedSessionToken = s.storedSessionToken
  ∧ (handleLoginV2 s .error).loginErrorVisible = true
  ∧ (handleUserLogin sU (.ok hok ⟨true, some t, u, m⟩)).storedUserToken = some t
  ∧ (handleUserLogin sU (.ok hok ⟨true, some t, u, m⟩)).userToken = some t
  ∧ (handleUserLogin sU (.ok hok ⟨true, some t, u, m⟩)).mainVisible = true
  ∧ (handleUserLogin sU (.ok hok ⟨true, some t, u, m⟩)).loginModalActive = false
  ∧ (handleUserLogin sU (.ok hok ⟨false, st, u, m⟩)).userToken = sU.userToken
  ∧ (handleUserLogin sU (.ok hok ⟨false, st, u, m⟩)).storedUserToken = sU.storedUserToken
  ∧ (handleUserLogin sU (.ok hok ⟨false, st, u, m⟩)).loginErrorVisible = true
  ∧ (handleUserLogin sU (.ok hok ⟨false, st, u, m⟩)).loginErrorMsg = m.getD "Login failed"
  ∧ (handleUserLogin sU .error).userToken = sU.userToken
  ∧ (handleUserLogin sU .error).storedUserToken = sU.storedUserToken
  ∧ (handleUserLogin sU .error).loginErrorVisible = true
  ∧ (handleUserLogin sU .error).loginErrorMsg = "Login failed. Please try again." :=
  ⟨rfl, rfl, rfl, rfl, rfl, rfl, rfl, rfl, rfl, rfl, rfl, rfl, rfl, rfl, rfl,
   rfl, rfl, rfl, rfl, rfl, rfl, rfl, rfl, rfl, rfl, rfl, rfl, rfl, rfl, rfl,
   rfl, rfl, rfl, rfl⟩

/-! ## C9: logout always clears local session state -/

/-- C9: every logout path ends with the local session cleared, whatever the
outcome of the POST /auth/logout call (its rejection is swallowed by
try/catch, and the user portal logout makes no call at all): module token and
identity null, durable stored token removed, login view shown. -/
theorem logout_always_clears_local_state (s : AdminState) (sU : UserState)
    (soft : Bool) (net net2 : FetchOutcome Unit) :
    (logout s net).sessionToken = none
  ∧ (logout s net).storedSessionToken = none
  ∧ (logout s net).currentAdminInfo = none
  ∧ (logout s net).loginModalActive = true
  ∧ (logout s net).mainVisible = false
  ∧ (logoutV2 s soft net2).sessionToken = none
  ∧ (logoutV2 s soft net2).storedSessionToken = none
  ∧ (logoutV2 s soft net2).currentAdminInfo = none
  ∧ (logoutV2 s soft net2).loginModalActive = true
  ∧ (logoutV2 s soft net2).mainVisible = false
  ∧ (handleUserLogout sU).userToken = none
  ∧ (handleUserLogout sU).storedUserToken = none
  ∧ (handleUserLogout sU).currentUser = none
  ∧ (handleUserLogout sU).loginModalActive = true
  ∧ (handleUserLogout sU).mainVisible = false
  ∧ (handleUserLogout sU).navVisible = false := by
  cases soft <;>
    exact ⟨rfl, rfl, rfl, rfl, rfl, rfl, rfl, rfl, rfl, rfl, rfl, rfl, rfl,
           rfl, rfl, rfl⟩

/-! ## C10: guarded handlers are no-ops without a selected target -/

/-- C10: with the corresponding current-id variable null, updateLead,
updateCrmLeadStatus and downloadCurrentToken return at once: the state is
returned unchanged and no request is issued. -/
theorem guarded_handlers_noop_without_target (s s2 : AdminState) (sU : UserState)
    (a b c d : String) (r1 r2 : FetchOutcome ApiBody) (r3 : FetchOutcome TokenBody) :
    updateLead sU none a b c r1 = (sU, false)
  ∧ updateCrmLeadStatus s none d r2 = (s, false)
  ∧ downloadCurrentToken s2 none r3 = (s2, false) :=
  ⟨rfl, rfl, rfl⟩

/-! ## C3: password-setup validation gates the network call -/

/-- C3: the password-setup form sends a request if and only if the password
equals its confirmation and has length at least 8; in particular, on a
mismatch no request is sent and the error Passwords do not match is shown. -/
theorem password_setup_request_gating (s : UserState) (email p c : String)
    (r : FetchOutcome ApiBody) :
    ((handlePasswordSetup s email p c r).2.isSome ↔ (p = c ∧ 8 ≤ p.length))
  ∧ (p ≠ c →
      (handlePasswordSetup s email p c r).2 = none
      ∧ (handlePasswordSetup s email p c r).1.setupErrorVisible = true
      ∧ (handlePasswordSetup s email p c r).1.setupErrorMsg = "Passwords do not match") := by
  constructor
  · constructor
    · intro h
      by_cases hpc : p = c
      · subst hpc
        by_cases hlen : p.length < 8
        · exfalso
          simp [handlePasswordSetup, hlen] at h
        · exact ⟨rfl, by omega⟩
      · simp [handlePasswordSetup, hpc] at h
    · rintro ⟨hpc, hlen⟩
      subst hpc
      have hnl : ¬ p.length < 8 := by omega
      cases r with
      | error => simp [handlePasswordSetup, hnl]
      | ok hok body =>
        by_cases hb : body.success = true <;>
          simp [handlePasswordSetup, hnl, hb]
  · intro hne
    refine ⟨?_, ?_, ?_⟩ <;> simp [handlePasswordSetup, hne]

/-- C3 witness: concrete mismatched confirmation — no request, matching error
text. -/
theorem password_setup_request_gating_witness :
    (handlePasswordSetup userState0 "alice@example.com" "secretpw1" "different"
        FetchOutcome.error).2 = none
  ∧ (handlePasswordSetup userState0 "alice@example.com" "secretpw1" "different"
        FetchOutcome.error).1.setupErrorMsg = "Passwords do not match" := by
  have h := (password_setup_request_gating userState0 "alice@example.com"
    "secretpw1" "different" FetchOutcome.error).2 (by decide)
  exact ⟨h.1, h.2.2⟩

/-! ## C4: confirmed delete -/

/-- C4: with a confirmed user delete target, a success response means the
entity is gone from the next load() result and a success toast is raised;
on success:false or a thrown fetch/parse the displayed rows and the server
list are untouched and only an error toast is raised. -/
theorem confirmDelete_success_and_failure (srv : List UserRow) (c : AdminState)
    (id : Nat) (hok : Bool) (m : Option String) :
    ((serverLoadUsers (confirmDelete ⟨srv, { c with currentDeleteTarget := some ("user", id) }⟩
        (.ok hok ⟨true, m⟩))).all (fun u => !(u.id == id)) = true)
  ∧ ((confirmDelete ⟨srv, { c with currentDeleteTarget := some ("user", id) }⟩
        (.ok hok ⟨true, m⟩)).client.alerts
      = c.alerts ++ [("User deleted successfully!", "success")])
  ∧ ((confirmDelete ⟨srv, { c with currentDeleteTarget := some ("user", id) }⟩
        (.ok hok ⟨false, m⟩)).client.displayedUserRows = c.displayedUserRows)
  ∧ ((confirmDelete ⟨srv, { c with currentDeleteTarget := some ("user", id) }⟩
        (.ok hok ⟨false, m⟩)).serverUsers = srv)
  ∧ ((confirmDelete ⟨srv, { c with currentDeleteTarget := some ("user", id) }⟩
        (.ok hok ⟨false, m⟩)).client.alerts = c.alerts ++ [(m.getD "", "error")])
  ∧ ((confirmDelete ⟨srv, { c with currentDeleteTarget := some ("user", id) }⟩
        FetchOutcome.error).client.displayedUserRows = c.displayedUserRows)
  ∧ ((confirmDelete ⟨srv, { c with currentDeleteTarget := some ("user", id) }⟩
        FetchOutcome.error).serverUsers = srv)
  ∧ ((confirmDelete ⟨srv, { c with currentDeleteTarget := some ("user", id) }⟩
        FetchOutcome.error).client.alerts
      = c.alerts ++ [("Failed to delete user", "error")]) := by
  refine ⟨?_, ?_, rfl, rfl, rfl, rfl, rfl, rfl⟩
  · show (srv.filter (fun u => u.id ≠ id)).all (fun u => !(u.id == id)) = true
    rw [List.all_eq_true]
    intro u hu
    have := List.of_mem_filter hu
    simpa using this
  · show c.alerts ++ [(capitalizeFirst "user" ++ " deleted successfully!", "success")]
        = c.alerts ++ [("User deleted successfully!", "success")]
    have : capitalizeFirst "user" ++ " deleted successfully!"
        = "User deleted successfully!" := by decide
    rw [this]

/-! ## C5: aggregates and the client-computed user count -/

/-- Concrete users array of a tenant-detail payload. -/
def acmeUsers : List TenantUserRec := [⟨"Ann", "Ar", "111"⟩, ⟨"Bob", "Br", "222"⟩]

/-- Concrete tenant-detail payload. -/
def acmeDetail : TenantDetail := ⟨"Acme", acmeUsers⟩

/-- C5 counterexample: viewTenantUsers displays a count it computes
client-side — the heading shows users.length of the client-held array, while
the payload it renders carries no server-provided aggregate at all, refuting
the claim that every displayed count is taken verbatim from the server
response. -/
theorem viewTenantUsers_count_computed_client_side :
    viewTenantUsersDisplayedCount acmeDetail = some (List.length acmeDetail.users)
  ∧ List.length acmeDetail.users = 2
  ∧ tenantDetailServerAggregates acmeDetail = []
  ∧ viewTenantUsersMessage acmeDetail
      = "<strong>Acme</strong><br><br><strong>Users (2):</strong><br>"
        ++ "Ann Ar (111)<br>Bob Br (222)" := by
  refine ⟨rfl, rfl, rfl, by decide⟩

/-- C5 (amended): every stat widget takes its value only from the stats object
of the server response — changing the returned leads list while keeping stats
fixed never changes the displayed aggregates, each being the stats field with
default 0 — with one exception: viewTenantUsers displays a user count computed
client-side as the length of the returned users array. -/
theorem stats_shown_verbatim_from_server (s : AdminState) (sU : UserState)
    (q : CrmQuery) (qU : LeadsQuery) (stats : Option CrmStats)
    (statsU : Option UserStats) (l1 l2 : Option (List CrmLeadRec))
    (u1 u2 : Option (List LeadRec)) (m1 m2 : Option String) (hok : Bool)
    (name : String) (us : List TenantUserRec) :
    (loadCrmLeads s q (.ok hok ⟨true, l1, stats, m1⟩)).1.crmStatsShown
      = (loadCrmLeads s q (.ok hok ⟨true, l2, stats, m2⟩)).1.crmStatsShown
  ∧ (loadUserLeads sU qU (.ok hok ⟨true, u1, statsU, m1⟩)).1.userStatsShown
      = (loadUserLeads sU qU (.ok hok ⟨true, u2, statsU, m2⟩)).1.userStatsShown
  ∧ (us ≠ [] → viewTenantUsersDisplayedCount ⟨name, us⟩ = some us.length) := by
  refine ⟨rfl, rfl, fun h => ?_⟩
  simp [viewTenantUsersDisplayedCount, List.length_pos.mpr h]

/-- C5 witness for the amended statement at a concrete nonempty users array. -/
theorem stats_shown_verbatim_from_server_witness :
    viewTenantUsersDisplayedCount ⟨"Acme", acmeUsers⟩ = some acmeUsers.length := by
  have h := stats_shown_verbatim_from_server adminState0 userState0
    ⟨"", "", ""⟩ ⟨"", "", false⟩ none none none none none none none none true
    "Acme" acmeUsers
  exact h.2.2 (by decide)

/-! ## C6: server order, and where filtering actually happens -/

/-- Client-side my-leads filtering as the claim words it: keep only the leads
whose owner equals the current user.  Stated from the claim, for comparison
with what the source does. -/
def specClaimedMyLeadsFilter (currentUserName : String) (leads : List LeadRec) :
    List LeadRec :=
  leads.filter (fun l => l.owner = some currentUserName)

/-- A lead owned by Bob, returned by the server. -/
def bobLead : LeadRec := ⟨7, some "Call back", some "Bob", some "High", some "Open", none⟩

/-- A concrete admin CRM lead. -/
def crmLead0 : CrmLeadRec :=
  ⟨3, some "Quote", some "Acme", some "Alice", some "Bob", some "Mid", some "Closed", none⟩

/-- C6 counterexample: with the my-leads toggle on and Alice logged in, the
portal renders a lead owned by Bob exactly as the server sent it — the
my_leads restriction travels to the server in the query string, and no
client-side equality filtering happens; likewise the user search box handler
filterUsers changes nothing.  This refutes the clause that the client performs
the my-leads and search-box filtering itself. -/
theorem loadUserLeads_no_client_side_filtering :
    (loadUserLeads userState0 ⟨"", "", true⟩
        (.ok true ⟨true, some [bobLead], none, none⟩)).1.displayedLeadCards
      = [renderUserLeadCard bobLead]
  ∧ specClaimedMyLeadsFilter "Alice" [bobLead] = []
  ∧ [renderUserLeadCard bobLead]
      ≠ displayUserLeads (specClaimedMyLeadsFilter "Alice" [bobLead])
  ∧ (loadUserLeads userState0 ⟨"", "", true⟩
        (.ok true ⟨true, some [bobLead], none, none⟩)).2
      = "/api/crm/leads?my_leads=true&"
  ∧ filterUsers adminState0 "zzz" "" = adminState0 := by
  refine ⟨rfl, by decide, by decide, by decide, rfl⟩

/-- C6 (amended): every list display renders the server list element for
element in the server's order — row i is the rendering of server element i,
nothing reordered, dropped or added — and the client performs no client-side
filtering at all: the my-leads toggle and the other filters become server-side
query parameters, and the search-box handler is an unimplemented stub that
changes nothing. -/
theorem rendered_rows_follow_server_order (users : List UserRow)
    (ts : List TenantRow) (leads : List CrmLeadRec) (uleads : List LeadRec)
    (i : Nat) (s : AdminState) (a b : String) (sU : UserState) (q : LeadsQuery)
    (ls : List LeadRec) (stats : Option UserStats) (m : Option String)
    (hok : Bool) :
    (displayUsers users)[i]? = (users[i]?).map renderUserRow
  ∧ (displayTenants ts)[i]? = (ts[i]?).map renderTenantRow
  ∧ (leads ≠ [] → (displayCrmLeads leads)[i]? = (leads[i]?).map renderCrmLeadRow)
  ∧ (uleads ≠ [] →
      (displayUserLeads uleads)[i]? = (uleads[i]?).map renderUserLeadCard)
  ∧ filterUsers s a b = s
  ∧ (loadUserLeads sU q (.ok hok ⟨true, some ls, stats, m⟩)).1.displayedLeadCards
      = displayUserLeads ls := by
  refine ⟨List.getElem?_map .., List.getElem?_map .., fun h => ?_, fun h => ?_, rfl, rfl⟩
  · unfold displayCrmLeads
    rw [if_pos (List.length_pos.mpr h), List.getElem?_map]
  · unfold displayUserLeads
    rw [if_pos (List.length_pos.mpr h), List.getElem?_map]

/-- C6 witness for the amended statement: concrete singleton lists. -/
theorem rendered_rows_follow_server_order_witness :
    (displayCrmLeads [crmLead0])[0]? = ([crmLead0][0]?).map renderCrmLeadRow
  ∧ (displayUserLeads [bobLead])[0]? = ([bobLead][0]?).map renderUserLeadCard := by
  have h := rendered_rows_follow_server_order [] [] [crmLead0] [bobLead] 0
    adminState0 "" "" userState0 ⟨"", "", false⟩ [] none none true
  exact ⟨h.2.2.1 (by decide), h.2.2.2.1 (by decide)⟩

end Pareto
